import Mathlib

/-!
Shallow embedding of the punchcard pipeline/collector core.

Embedded directly from the repository sources:
  * `lib/shape/period.ts` — the `Period` interface, its two constants and `Period.parse`;
  * `lib/enumerable/collector.ts` — the `Collector` interface and the `Collectors`
    factory namespace (`toQueue`, `toStream`, `toS3DeliveryStream`, `toTopic`);
  * the Glue collector module — `GlueTableCollector`, `CollectedGlueTable` and
    `Enumerable.prototype.toGlueTable`.

The generic machinery those modules are written against (`Enumerable` with its
`forBatch`/`collect` methods, the heterogeneous dependency list `Cons`, the
resource constructors and the per-variant collectors for queues, streams,
delivery streams and topics) is not among the excerpted sources; those parts are
modelled from the specification, and each such definition says so in its doc
comment.

Infrastructure declaration is a synchronous graph-building phase, so the
embedding threads an explicit `BuildState` (a fresh-id counter plus the lists of
resources and compute units declared so far) through every constructor call.
-/

namespace Punchcard

/-- Primitive field types of the schema/type system (external collaborator of
the core; only the constructors the excerpted sources mention are modelled). -/
inductive FieldType
  | string
  | integer
  | smallint
  | timestamp
deriving DecidableEq, Repr

/-- A structural schema: an ordered list of named fields, as in `struct({...})`
and the Glue table `columns` shape. -/
abbrev Schema := List (String × FieldType)

/-- Runtime field values carried by events flowing through a pipeline. -/
inductive FieldVal
  | str (s : String)
  | int (n : Int)
  | time (t : Int)
deriving DecidableEq, Repr

/-- A runtime event: a record of named field values. -/
abbrev Value := List (String × FieldVal)

/-- Kinds of managed resources a collector can materialize into. -/
inductive ResourceKind
  | glueTable
  | queue
  | stream
  | s3DeliveryStream
  | topic
  | other
deriving DecidableEq, Repr

/-- A declared managed resource in the construct graph: identity, kind, and the
payload schema it is typed with. -/
structure Resource where
  id : Nat
  kind : ResourceKind
  schema : Schema
deriving DecidableEq, Repr

/-- A capability requirement (a `Dependency` in the source): a client for a
resource of a given kind, or an opaque externally declared requirement. -/
inductive Capability
  | client (kind : ResourceKind) (resourceId : Nat)
  | custom (name : String)
deriving DecidableEq, Repr

/-- Runtime effects a handler can perform through a resolved client; `sink`
models `self.sink(events)`, the batch write operation of a collected resource. -/
inductive Action
  | sink (self : Capability) (events : List Value)

/-- A deployable compute unit (a `Function` in the source): its identity in the
graph, its declared capability (dependency) list, and its per-batch handler,
already fused with the pipeline's pure operator chain. -/
structure ComputeUnit where
  id : Nat
  dependencies : List Capability
  handler : List Value → List Action

/-- The synchronous graph-building state of the declaration phase: a counter
for fresh construct identities and the resources and compute units declared so
far. -/
structure BuildState where
  nextId : Nat
  resources : List Resource
  computeUnits : List ComputeUnit

/-- Declare a new resource: it receives the next fresh identity and is appended
to the graph. Returns the new resource's identity. -/
def BuildState.addResource (st : BuildState) (kind : ResourceKind) (schema : Schema) :
    Nat × BuildState :=
  (st.nextId,
    { nextId := st.nextId + 1
      resources := st.resources ++ [⟨st.nextId, kind, schema⟩]
      computeUnits := st.computeUnits })

/-! ## Capability lists (spec §4.1)

Modelled from the spec: the heterogeneous list module (`Cons` in
`compute/hlist.ts`) and the `Dependency.List` machinery are not among the
excerpted sources. The spec describes an ordered sequence with `empty`, `cons`,
`concat`, and a fail-fast positional resolution. -/

/-- Modelled from the spec: an ordered capability list (`CapabilityList`),
built by cons and concatenation, never mutated. -/
abbrev CapabilityList := List Capability

/-- Modelled from the spec: the empty capability list. -/
def CapabilityList.empty : CapabilityList := []

/-- Modelled from the spec: `cons(requirement, list)` logically prepends the
requirement. -/
def CapabilityList.cons (c : Capability) (l : CapabilityList) : CapabilityList :=
  c :: l

/-- Modelled from the spec: `concat(listA, listB)` appends every element of B
after every element of A, reordering neither side. -/
def CapabilityList.concat (a b : CapabilityList) : CapabilityList :=
  a ++ b

/-- Modelled from the spec: fail-fast positional resolution — given a context
that builds one client per requirement (and may fail), produce the tuple of
live clients in list order, stopping at the first failure. -/
def CapabilityList.resolve (ctx : Capability → Except String Capability) :
    CapabilityList → Except String (List Capability)
  | [] => Except.ok []
  | c :: rest => do
      let client ← ctx c
      let clients ← CapabilityList.resolve ctx rest
      Except.ok (client :: clients)

/-! ## Enumerable pipelines (spec §4.3)

Modelled from the spec: `enumerable.ts` is not among the excerpted sources
(only its callers are). A pipeline value carries its upstream source, the fused
pure transformation accumulated from chained operators, the accumulated
capability list, and its declared output schema. -/

/-- Modelled from the spec: a lazy, immutable pipeline description
(`Enumerable`). `transform` is the fused chain of pure operators
(flatMap-general: one input event yields zero or more output events);
`deps` is the accumulated capability list; `eventSchema` the declared output
type. -/
structure Enumerable where
  sourceResource : Nat
  transform : Value → List Value
  deps : CapabilityList
  eventSchema : Schema

/-- Modelled from the spec: `map(fn)` returns a new pipeline description —
no resource or compute unit is created; the function is fused into the
transform chain and its declared requirements are merged into the capability
list. -/
def Enumerable.map (e : Enumerable) (f : Value → Value) (outSchema : Schema)
    (fdeps : CapabilityList) : Enumerable :=
  { sourceResource := e.sourceResource
    transform := fun v => (e.transform v).map f
    deps := CapabilityList.concat e.deps fdeps
    eventSchema := outSchema }

/-- Modelled from the spec: `forBatch` — the terminal call that actually
provisions a compute unit. The unit's capability list is the passed `depends`
consed onto the pipeline's accumulated list; its handler applies the fused
transform chain to the raw batch and then calls the user handler with the
transformed batch and the resolved `depends` client. -/
def Enumerable.forBatch (e : Enumerable) (depend : Capability)
    (handle : List Value → Capability → List Action) (st : BuildState) :
    ComputeUnit × BuildState :=
  let cu : ComputeUnit :=
    { id := st.nextId
      dependencies := CapabilityList.cons depend e.deps
      handler := fun events => handle (events.flatMap e.transform) depend }
  (cu, { nextId := st.nextId + 1
         resources := st.resources
         computeUnits := st.computeUnits ++ [cu] })

/-- A collector strategy viewed through the `Collector<T, E>` interface of
`collector.ts`: `collect(scope, id, enumerable)` produces the collected
result. -/
structure Collector (α : Type) where
  collect : Enumerable → BuildState → α × BuildState

/-- Modelled from the spec: `Enumerable.collect(strategy)` delegates to the
collector strategy (spec §4.3/§4.4), passing itself as the source. -/
def Enumerable.collect (e : Enumerable) (c : Collector α) (st : BuildState) :
    α × BuildState :=
  c.collect e st

/-! ## The Glue table collector (embedded from the source module) -/

/-- A Glue `Table` resource handle (modelled from the spec at its constructor
interface: `storage/glue.ts` itself is not among the excerpted sources; the
`super(scope, id, props)` call of `CollectedGlueTable` declares the table
resource). -/
structure Table where
  resourceId : Nat
  schema : Schema
deriving DecidableEq, Repr

/-- Modelled from the spec: every data structure is itself enumerable — the
collected handle is usable as a new typed event source. -/
def Table.enumerable (t : Table) : Enumerable :=
  { sourceResource := t.resourceId
    transform := fun v => [v]
    deps := CapabilityList.empty
    eventSchema := t.schema }

/-- `TableProps`: the properties of a Glue table; `columns` is its schema. -/
structure TableProps where
  columns : Schema

/-- `CollectedGlueTableProps`: `TableProps` plus the source enumerable
(embedded from the source module). -/
structure CollectedGlueTableProps extends TableProps where
  enumerable : Enumerable

/-- `CollectedGlueTable`: a Glue table produced by collecting an enumerable; it
extends `Table` and additionally owns the forwarding `sender` compute unit
(embedded from the source module). -/
structure CollectedGlueTable extends Table where
  sender : ComputeUnit

/-- The `CollectedGlueTable` constructor, embedded from the source:
`super(scope, id, props)` declares the table resource, then `sender` is
`props.enumerable.forBatch(this.resource, 'ToTable', { depends: this,
handle: async (events, self) => { self.sink(events); } })`. -/
def CollectedGlueTable.construct (props : CollectedGlueTableProps) (st : BuildState) :
    CollectedGlueTable × BuildState :=
  let made := st.addResource ResourceKind.glueTable props.columns
  let rid := made.1
  let st1 := made.2
  let sent := props.enumerable.forBatch (Capability.client ResourceKind.glueTable rid)
    (fun events self => [Action.sink self events]) st1
  ({ resourceId := rid, schema := props.columns, sender := sent.1 }, sent.2)

/-- `GlueTableCollector`: stores the table props; its constructor does nothing
else (embedded from the source). -/
structure GlueTableCollector where
  props : TableProps

/-- `GlueTableCollector.collect`, embedded from the source: returns
`new CollectedGlueTable(scope, id, { ...this.props, enumerable })`. -/
def GlueTableCollector.collect (c : GlueTableCollector) (enumerable : Enumerable)
    (st : BuildState) : CollectedGlueTable × BuildState :=
  CollectedGlueTable.construct { columns := c.props.columns, enumerable := enumerable } st

/-- The `Collector` interface view of a `GlueTableCollector`. -/
def GlueTableCollector.toCollector (c : GlueTableCollector) : Collector CollectedGlueTable :=
  ⟨c.collect⟩

/-- `Enumerable.prototype.toGlueTable`, embedded from the source:
`return this.collect(scope, id, new GlueTableCollector(tableProps))`. -/
def Enumerable.toGlueTable (e : Enumerable) (tableProps : TableProps) (st : BuildState) :
    CollectedGlueTable × BuildState :=
  e.collect (GlueTableCollector.mk tableProps).toCollector st

/-! ## The other collector variants (spec §4.4)

Modelled from the spec: `queue.ts`, `stream.ts`, `delivery-stream.ts` and
`topic.ts` are not among the excerpted sources; `collector.ts` only imports
their collectors. Per spec §4.4 all variants share steps (2)–(4) — obtain the
new resource's write capability, create the forwarding compute unit, wire it as
the batch consumer — and differ only in the resource kind constructed in
step (1). -/

/-- The result of a collector materialization: the new resource's identity and
schema plus the forwarding compute unit wired in front of it. -/
structure CollectedResource where
  resourceId : Nat
  schema : Schema
  sender : ComputeUnit

/-- Modelled from the spec: the shared steps (1)–(4) of every collector
variant — declare the new resource typed with the pipeline's output, then
attach one terminal `forBatch` compute unit whose handler forwards each batch
to the new resource's write operation. -/
def collectInto (kind : ResourceKind) (schema : Schema) (e : Enumerable)
    (st : BuildState) : CollectedResource × BuildState :=
  let made := st.addResource kind schema
  let sent := e.forBatch (Capability.client kind made.1)
    (fun events self => [Action.sink self events]) made.2
  (⟨made.1, schema, sent.1⟩, sent.2)

/-- `QueueProps<T>`: the properties of a new SQS queue; `type` is the payload
type (as in `collector.ts`). -/
structure QueueProps where
  type : Schema

/-- `StreamProps<T>`: the properties of a new Kinesis stream. -/
structure StreamProps where
  type : Schema

/-- `S3DeliveryStreamForType<T>`: the properties of a new Firehose delivery
stream to S3. -/
structure S3DeliveryStreamForType where
  type : Schema

/-- `TopicProps<T>`: the properties of a new SNS topic. -/
structure TopicProps where
  type : Schema

/-- Modelled from the spec: `QueueCollector` stores the queue props; its
materialization follows the shared collector contract with a queue resource. -/
structure QueueCollector where
  props : QueueProps

/-- Modelled from the spec: materialize into a new queue. -/
def QueueCollector.collect (c : QueueCollector) (e : Enumerable) (st : BuildState) :
    CollectedResource × BuildState :=
  collectInto ResourceKind.queue c.props.type e st

/-- Modelled from the spec: `StreamCollector` stores the stream props. -/
structure StreamCollector where
  props : StreamProps

/-- Modelled from the spec: materialize into a new stream. -/
def StreamCollector.collect (c : StreamCollector) (e : Enumerable) (st : BuildState) :
    CollectedResource × BuildState :=
  collectInto ResourceKind.stream c.props.type e st

/-- Modelled from the spec: `S3DeliveryStreamCollector` stores the delivery
stream props. -/
structure S3DeliveryStreamCollector where
  props : S3DeliveryStreamForType

/-- Modelled from the spec: materialize into a new S3 delivery stream. -/
def S3DeliveryStreamCollector.collect (c : S3DeliveryStreamCollector) (e : Enumerable)
    (st : BuildState) : CollectedResource × BuildState :=
  collectInto ResourceKind.s3DeliveryStream c.props.type e st

/-- Modelled from the spec: `TopicCollector` stores the topic props. -/
structure TopicCollector where
  props : TopicProps

/-- Modelled from the spec: materialize into a new topic. -/
def TopicCollector.collect (c : TopicCollector) (e : Enumerable) (st : BuildState) :
    CollectedResource × BuildState :=
  collectInto ResourceKind.topic c.props.type e st

/-! ## The `Collectors` factory namespace (embedded from `collector.ts`)

Each factory call evaluates during the same synchronous declaration phase, so
each is embedded as a state-threaded constructor call; the constructors only
store the props (as `GlueTableCollector`'s constructor does in the source). -/

/-- `Collectors.toQueue(props)`, embedded from `collector.ts`: returns
`new QueueCollector(props)`. -/
def Collectors.toQueue (props : QueueProps) (st : BuildState) :
    QueueCollector × BuildState :=
  (QueueCollector.mk props, st)

/-- `Collectors.toStream(props)`, embedded from `collector.ts`: returns
`new StreamCollector(props)`. -/
def Collectors.toStream (props : StreamProps) (st : BuildState) :
    StreamCollector × BuildState :=
  (StreamCollector.mk props, st)

/-- `Collectors.toS3DeliveryStream(props)`, embedded from `collector.ts`:
returns `new S3DeliveryStreamCollector(props)`. -/
def Collectors.toS3DeliveryStream (props : S3DeliveryStreamForType) (st : BuildState) :
    S3DeliveryStreamCollector × BuildState :=
  (S3DeliveryStreamCollector.mk props, st)

/-- `Collectors.toTopic(props)`, embedded from `collector.ts`: returns
`new TopicCollector(props)`. -/
def Collectors.toTopic (props : TopicProps) (st : BuildState) :
    TopicCollector × BuildState :=
  (TopicCollector.mk props, st)

/-! ## Collector variants as one sum type, for variant-generic statements -/

/-- The closed set of collector variants of the system. -/
inductive CollectorVariant
  | glue (props : TableProps)
  | queue (props : QueueProps)
  | stream (props : StreamProps)
  | s3DeliveryStream (props : S3DeliveryStreamForType)
  | topic (props : TopicProps)

/-- The resource kind a variant materializes into. -/
def CollectorVariant.kind : CollectorVariant → ResourceKind
  | .glue _ => ResourceKind.glueTable
  | .queue _ => ResourceKind.queue
  | .stream _ => ResourceKind.stream
  | .s3DeliveryStream _ => ResourceKind.s3DeliveryStream
  | .topic _ => ResourceKind.topic

/-- The schema the variant's new resource is typed with. -/
def CollectorVariant.schema : CollectorVariant → Schema
  | .glue props => props.columns
  | .queue props => props.type
  | .stream props => props.type
  | .s3DeliveryStream props => props.type
  | .topic props => props.type

/-- Materialize a collector variant over an enumerable: each case delegates to
that variant's `collect`. -/
def CollectorVariant.materialize : CollectorVariant → Enumerable → BuildState →
    CollectedResource × BuildState
  | .glue props => fun e st =>
      let made := (GlueTableCollector.mk props).collect e st
      (⟨made.1.resourceId, made.1.schema, made.1.sender⟩, made.2)
  | .queue props => fun e st => (QueueCollector.mk props).collect e st
  | .stream props => fun e st => (StreamCollector.mk props).collect e st
  | .s3DeliveryStream props => fun e st => (S3DeliveryStreamCollector.mk props).collect e st
  | .topic props => fun e st => (TopicCollector.mk props).collect e st

/-! ## Periods (embedded from `lib/shape/period.ts`) -/

/-- The `Period` interface: an id, a partition schema, and a length in
milliseconds. -/
structure Period where
  id : String
  schema : Schema
  milliseconds : Nat
deriving DecidableEq, Repr

/-- The `PT1H` period constant: hourly, partitioned by year/month/day/hour. -/
def Period.PT1H : Period :=
  { id := "hourly"
    schema := [("year", FieldType.smallint), ("month", FieldType.smallint),
               ("day", FieldType.smallint), ("hour", FieldType.smallint)]
    milliseconds := 60 * 60 * 1000 }

/-- The `PT1M` period constant: minutely, partitioned by
year/month/day/hour/minute. -/
def Period.PT1M : Period :=
  { id := "minutely"
    schema := [("year", FieldType.smallint), ("month", FieldType.smallint),
               ("day", FieldType.smallint), ("hour", FieldType.smallint),
               ("minute", FieldType.smallint)]
    milliseconds := 60 * 1000 }

/-- `Period.parse`, embedded from the source: returns `PT1H` for the string
PT1H, `PT1M` for the string PT1M, and throws an unknown-period error for every
other string. -/
def Period.parse (str : String) : Except String Period :=
  if str = "PT1H" then Except.ok Period.PT1H
  else if str = "PT1M" then Except.ok Period.PT1M
  else Except.error ("unknown period " ++ str)

/-! ## Scenario fixtures -/

/-- Schema of the scenario's source events: `{key: string, count: integer}`. -/
def scenarioSourceSchema : Schema :=
  [("key", FieldType.string), ("count", FieldType.integer)]

/-- Schema of the scenario's pipeline output: `{key, count, timestamp}`. -/
def scenarioOutSchema : Schema :=
  [("key", FieldType.string), ("count", FieldType.integer),
   ("timestamp", FieldType.timestamp)]

/-- The scenario's source: an externally constructed resource (identity 0)
entering a pipeline with the identity transform, no accumulated capabilities. -/
def scenarioSource : Enumerable :=
  { sourceResource := 0
    transform := fun v => [v]
    deps := CapabilityList.empty
    eventSchema := scenarioSourceSchema }

/-- The graph at the start of the scenario: only the source resource exists. -/
def scenarioStart : BuildState :=
  { nextId := 1
    resources := [⟨0, ResourceKind.topic, scenarioSourceSchema⟩]
    computeUnits := [] }

/-- The scenario's pure mapping function: append a timestamp field. -/
def addTimestamp (v : Value) : Value :=
  v ++ [("timestamp", FieldVal.time 1563000000)]

/-- The `Collector` interface view of a `QueueCollector`. -/
def QueueCollector.toCollector (c : QueueCollector) : Collector CollectedResource :=
  ⟨c.collect⟩

/-- The scenario, end to end: build the queue collector with
`Collectors.toQueue`, apply `map(addTimestamp)` to the source, and collect. -/
def scenarioResult : CollectedResource × BuildState :=
  let made := Collectors.toQueue (QueueProps.mk scenarioOutSchema) scenarioStart
  let mapped := scenarioSource.map addTimestamp scenarioOutSchema CapabilityList.empty
  mapped.collect made.1.toCollector made.2

/-- Modelled from the spec: the type-compatibility check of the external
schema system, used for `SchemaMismatchError` detection — the target resource
can represent the pipeline's output exactly when the declared schemas agree. -/
def Schema.compatible (target output : Schema) : Bool :=
  decide (target = output)

/-- An enumerable whose output schema the mismatched table cannot represent. -/
def mismatchedEnumerable : Enumerable :=
  { sourceResource := 0
    transform := fun v => [v]
    deps := CapabilityList.empty
    eventSchema := [("key", FieldType.string)] }

/-- Table props whose columns differ from `mismatchedEnumerable`'s output. -/
def mismatchedProps : TableProps :=
  ⟨[("value", FieldType.integer)]⟩

/-- The graph before the mismatched materialization: one source resource. -/
def initialGraph : BuildState :=
  { nextId := 1
    resources := [⟨0, ResourceKind.topic, [("key", FieldType.string)]⟩]
    computeUnits := [] }

/-! ## Helper lemmas -/

/-- Every collector variant's materialization is an instance of the shared
collector contract `collectInto` at its kind and schema. -/
theorem materialize_eq_collectInto (v : CollectorVariant) (e : Enumerable)
    (st : BuildState) : v.materialize e st = collectInto v.kind v.schema e st := by
  cases v <;> rfl

/-! ## Claim theorems -/

/-- C10: the Period constants satisfy the exact arithmetic and schema
relations: PT1M.milliseconds = 60000, PT1H.milliseconds = 3600000 (so PT1H is
60 times PT1M), PT1M's schema is PT1H's fields plus a minute field, and the
ids are minutely and hourly. -/
theorem period_constants_exact :
    Period.PT1M.milliseconds = 60000 ∧
    Period.PT1H.milliseconds = 3600000 ∧
    Period.PT1H.milliseconds = 60 * Period.PT1M.milliseconds ∧
    Period.PT1M.schema = Period.PT1H.schema ++ [("minute", FieldType.smallint)] ∧
    Period.PT1M.id = "minutely" ∧
    Period.PT1H.id = "hourly" := by
  refine ⟨by decide, by decide, by decide, by decide, rfl, rfl⟩

/-- C9: Period.parse is total over its two valid inputs and fails on all
others — it returns the PT1H constant on the string PT1H, the PT1M constant on
the string PT1M, and an unknown-period error on every other string. -/
theorem period_parse_total (s : String) :
    Period.parse "PT1H" = Except.ok Period.PT1H ∧
    Period.parse "PT1M" = Except.ok Period.PT1M ∧
    (s ≠ "PT1H" → s ≠ "PT1M" → Period.parse s = Except.error ("unknown period " ++ s)) := by
  refine ⟨by simp [Period.parse], by simp [Period.parse], fun h1 h2 => ?_⟩
  simp [Period.parse, h1, h2]

/-- Witness for C9 at concrete inputs: the string PT2H is rejected. -/
theorem period_parse_total_witness :
    Period.parse "PT2H" = Except.error ("unknown period " ++ "PT2H") :=
  (period_parse_total "PT2H").2.2 (by decide) (by decide)

/-- C7: capability-list concatenation is associative and order-preserving:
both associations are the same list, they resolve to the same positional
client tuple under any resolution context, and concatenation keeps every
element of the left list (in order) before every element of the right list. -/
theorem capability_concat_assoc_order (a b c : CapabilityList)
    (ctx : Capability → Except String Capability) :
    CapabilityList.concat (CapabilityList.concat a b) c
        = CapabilityList.concat a (CapabilityList.concat b c) ∧
    CapabilityList.resolve ctx (CapabilityList.concat (CapabilityList.concat a b) c)
        = CapabilityList.resolve ctx (CapabilityList.concat a (CapabilityList.concat b c)) ∧
    (CapabilityList.concat a b).take a.length = a ∧
    (CapabilityList.concat a b).drop a.length = b := by
  refine ⟨List.append_assoc a b c, ?_, List.take_left a b, List.drop_left a b⟩
  rw [CapabilityList.concat, CapabilityList.concat, CapabilityList.concat,
    CapabilityList.concat, List.append_assoc]

/-- C8: each collector factory (`Collectors.toQueue`, `toStream`,
`toS3DeliveryStream`, `toTopic`) only constructs a strategy object holding the
given props; the build state — resources and compute units — is unchanged
until `collect` is later invoked. -/
theorem collector_factories_create_nothing (qp : QueueProps) (sp : StreamProps)
    (dp : S3DeliveryStreamForType) (tp : TopicProps) (st : BuildState) :
    ((Collectors.toQueue qp st).1.props = qp ∧ (Collectors.toQueue qp st).2 = st) ∧
    ((Collectors.toStream sp st).1.props = sp ∧ (Collectors.toStream sp st).2 = st) ∧
    ((Collectors.toS3DeliveryStream dp st).1.props = dp ∧
      (Collectors.toS3DeliveryStream dp st).2 = st) ∧
    ((Collectors.toTopic tp st).1.props = tp ∧ (Collectors.toTopic tp st).2 = st) :=
  ⟨⟨rfl, rfl⟩, ⟨rfl, rfl⟩, ⟨rfl, rfl⟩, ⟨rfl, rfl⟩⟩

/-- C1: materializing any collector variant declares the new target resource
and attaches exactly one freshly created terminal compute unit whose handler
forwards each already-transformed batch to the new resource's write operation;
in the Glue variant, the collected table's `sender` is the enumerable's
`forBatch` compute unit whose handler calls `self.sink(events)` on the new
table and does nothing else. -/
theorem collect_attaches_single_forwarding_unit (v : CollectorVariant)
    (e : Enumerable) (st : BuildState) (props : TableProps) :
    ((v.materialize e st).2.computeUnits
        = st.computeUnits ++ [(v.materialize e st).1.sender]) ∧
    ((v.materialize e st).2.resources
        = st.resources ++ [⟨(v.materialize e st).1.resourceId, v.kind, v.schema⟩]) ∧
    (∀ events, (v.materialize e st).1.sender.handler events
        = [Action.sink (Capability.client v.kind (v.materialize e st).1.resourceId)
            (events.flatMap e.transform)]) ∧
    (((GlueTableCollector.mk props).collect e st).1.sender
        = (e.forBatch (Capability.client ResourceKind.glueTable st.nextId)
            (fun events self => [Action.sink self events])
            (st.addResource ResourceKind.glueTable props.columns).2).1) ∧
    (∀ events, ((GlueTableCollector.mk props).collect e st).1.sender.handler events
        = [Action.sink (Capability.client ResourceKind.glueTable st.nextId)
            (events.flatMap e.transform)]) := by
  refine ⟨?_, ?_, fun events => ?_, rfl, fun events => rfl⟩ <;> cases v <;> rfl

/-- C2: the terminal compute unit's capability list is the new resource's own
client capability consed onto the upstream enumerable's accumulated capability
list — the upstream's requirements are all retained in their original order
(the list grows by exactly one, never shrinks). -/
theorem sender_dependencies_cons_upstream (v : CollectorVariant)
    (e : Enumerable) (st : BuildState) :
    ((v.materialize e st).1.sender.dependencies
        = CapabilityList.cons
            (Capability.client v.kind (v.materialize e st).1.resourceId) e.deps) ∧
    List.IsSuffix e.deps (v.materialize e st).1.sender.dependencies ∧
    (v.materialize e st).1.sender.dependencies.length = e.deps.length + 1 := by
  cases v <;>
    exact ⟨rfl, ⟨[Capability.client _ st.nextId], rfl⟩, rfl⟩

/-- C3: `toGlueTable(scope, id, tableProps)` returns exactly the result of
`collect(scope, id, new GlueTableCollector(tableProps))`, and the returned
handle is itself the newly materialized table resource, usable as a new event
source for further chaining. -/
theorem toGlueTable_delegates_to_collect (e : Enumerable) (tableProps : TableProps)
    (st : BuildState) :
    e.toGlueTable tableProps st
        = e.collect (GlueTableCollector.mk tableProps).toCollector st ∧
    (e.toGlueTable tableProps st).1.toTable
        = { resourceId := st.nextId, schema := tableProps.columns } ∧
    Resource.mk st.nextId ResourceKind.glueTable tableProps.columns
        ∈ (e.toGlueTable tableProps st).2.resources ∧
    (e.toGlueTable tableProps st).1.toTable.enumerable.sourceResource
        = (e.toGlueTable tableProps st).1.resourceId := by
  refine ⟨rfl, rfl, ?_, rfl⟩
  show _ ∈ st.resources ++ [Resource.mk st.nextId ResourceKind.glueTable tableProps.columns]
  exact List.mem_append_right _ (List.mem_singleton.mpr rfl)

/-- C4 counterexample: at a concrete materialization whose target table schema
cannot represent the pipeline's output schema, `collect` does not fail — it
returns a collected table typed with the mismatched columns and the new
resource is created, so no `SchemaMismatchError` is raised. -/
theorem glue_collect_ignores_schema_mismatch :
    Schema.compatible mismatchedProps.columns mismatchedEnumerable.eventSchema = false ∧
    ((GlueTableCollector.mk mismatchedProps).collect mismatchedEnumerable initialGraph).1.schema
        = mismatchedProps.columns ∧
    ((GlueTableCollector.mk mismatchedProps).collect mismatchedEnumerable initialGraph).2.resources
        = initialGraph.resources
            ++ [⟨1, ResourceKind.glueTable, mismatchedProps.columns⟩] := by
  refine ⟨by decide, rfl, rfl⟩

/-- C4 amended: `GlueTableCollector.collect` performs no runtime schema check
and never fails — for every props, enumerable and state (compatible or not) it
constructs the table resource typed with the given columns and attaches the
forwarding compute unit; schema compatibility is enforced only statically by
the TypeScript type parameters. -/
theorem glue_collect_always_materializes (c : GlueTableCollector) (e : Enumerable)
    (st : BuildState) :
    (c.collect e st).1.schema = c.props.columns ∧
    (c.collect e st).2.resources
        = st.resources ++ [⟨st.nextId, ResourceKind.glueTable, c.props.columns⟩] ∧
    (c.collect e st).2.computeUnits
        = st.computeUnits ++ [(c.collect e st).1.sender] :=
  ⟨rfl, rfl, rfl⟩

/-- C5: materializing collectors never mutates the upstream pipeline value and
two collectors materialized from the same enumerable yield independent
graphs — distinct resource identities, distinct compute units (the graph only
gains the two senders, everything declared before is preserved), and the
second collector still consumes the unchanged upstream transform and
capability list. -/
theorem branch_isolation (e : Enumerable) (c1 c2 : CollectorVariant)
    (st : BuildState) :
    (c1.materialize e st).1.sender.id
        ≠ (c2.materialize e (c1.materialize e st).2).1.sender.id ∧
    (c1.materialize e st).1.resourceId
        ≠ (c2.materialize e (c1.materialize e st).2).1.resourceId ∧
    (c1.materialize e st).2.computeUnits
        = st.computeUnits ++ [(c1.materialize e st).1.sender] ∧
    (c2.materialize e (c1.materialize e st).2).2.computeUnits
        = st.computeUnits ++ [(c1.materialize e st).1.sender]
            ++ [(c2.materialize e (c1.materialize e st).2).1.sender] ∧
    (c2.materialize e (c1.materialize e st).2).2.resources
        = st.resources ++ [⟨st.nextId, c1.kind, c1.schema⟩]
            ++ [⟨st.nextId + 2, c2.kind, c2.schema⟩] ∧
    (c2.materialize e (c1.materialize e st).2).1.sender.dependencies
        = CapabilityList.cons (Capability.client c2.kind (st.nextId + 2)) e.deps ∧
    (∀ events, (c2.materialize e (c1.materialize e st).2).1.sender.handler events
        = [Action.sink (Capability.client c2.kind (st.nextId + 2))
            (events.flatMap e.transform)]) := by
  rw [materialize_eq_collectInto c1 e st,
    materialize_eq_collectInto c2 e (collectInto c1.kind c1.schema e st).2]
  refine ⟨?_, ?_, rfl, rfl, rfl, rfl, fun events => rfl⟩
  · show st.nextId + 1 ≠ st.nextId + 1 + 1 + 1
    omega
  · show st.nextId ≠ st.nextId + 1 + 1
    omega

/-- C6: the end-to-end queue scenario — a source of `{key, count}` events,
one `map(addTimestamp)`, then collect with the queue collector — declares
exactly one new queue resource typed `{key, count, timestamp}` and exactly one
new compute unit whose capability list is exactly the queue-write client; the
factory call and the map stage alone declare nothing. -/
theorem queue_scenario_one_unit_one_resource :
    (Collectors.toQueue (QueueProps.mk scenarioOutSchema) scenarioStart).2.resources
        = scenarioStart.resources ∧
    (Collectors.toQueue (QueueProps.mk scenarioOutSchema) scenarioStart).2.computeUnits
        = scenarioStart.computeUnits ∧
    scenarioResult.2.resources
        = [⟨0, ResourceKind.topic, scenarioSourceSchema⟩,
           ⟨1, ResourceKind.queue, scenarioOutSchema⟩] ∧
    scenarioResult.2.computeUnits.length = 1 ∧
    scenarioResult.2.computeUnits.map ComputeUnit.dependencies
        = [[Capability.client ResourceKind.queue 1]] ∧
    scenarioResult.1.sender.dependencies = [Capability.client ResourceKind.queue 1] ∧
    scenarioResult.1.schema = scenarioOutSchema :=
  ⟨rfl, rfl, rfl, rfl, rfl, rfl, rfl⟩

end Punchcard
